import Mathlib

/-!
Shallow embedding of the MovieLog static-site project:
  - `fetch-cms-data.js` (build-time Contentful snapshot step),
  - the `allMovies` collection of `eleventy.config.js` (build-time merger),
  - `netlify/functions/movie.js` (live-enrichment proxy),
  - `js/live.js` (client cache and renderer).
JavaScript values are modelled with `Option` for possibly-absent fields,
`Except` for fallible JSON parsing, and explicit outcome parameters for
network calls.  JavaScript's `x || d` falsy-defaulting on strings and
numbers is captured by `jsOrStr` / `jsNum`.
-/

namespace MovieLog

/-- JS `s || d` for a possibly-absent string: `undefined` and `""` are falsy. -/
def jsOrStr (o : Option String) (d : String) : String :=
  match o with
  | some s => if s = "" then d else s
  | none => d

/-- JS `n || d` for a possibly-absent number: `undefined` and `0` are falsy. -/
def jsNum (o : Option Int) (d : Int) : Int :=
  match o with
  | some y => if y = 0 then d else y
  | none => d

/-- JS truthiness test used on credential strings: `!s` holds for `undefined` and `""`. -/
def jsFalsy (o : Option String) : Bool :=
  match o with
  | none => true
  | some s => s = ""

/-- Association-list lookup (first matching key), modelling JS object property read. -/
def lookupKV {α : Type} : List (String × α) → String → Option α
  | [], _ => none
  | (k, v) :: rest, t => if k = t then some v else lookupKV rest t

/-- Association-list update, modelling JS `obj[k] = v` (overwrite or append). -/
def setKV {α : Type} : List (String × α) → String → α → List (String × α)
  | [], k, v => [(k, v)]
  | (k0, v0) :: rest, k, v =>
      if k0 = k then (k, v) :: rest else (k0, v0) :: setKV rest k v

/-- Association-list removal, modelling JS `delete obj[k]`. -/
def delKV {α : Type} : List (String × α) → String → List (String × α)
  | [], _ => []
  | (k0, v0) :: rest, k =>
      if k0 = k then delKV rest k else (k0, v0) :: delKV rest k

/-!
## Collection merger (`eleventy.config.js`, `addCollection("allMovies")`)

A merged record carries the fields the sort comparator reads:
`a.releaseYear || a.data?.releaseYear || 0`.  The `id` field stands for the
rest of the record and lets stability be observed.
-/

structure SiteRec where
  id : String
  releaseYear : Option Int
  dataReleaseYear : Option Int
  deriving DecidableEq, Repr

/-- The comparator key: `a.releaseYear || a.data?.releaseYear || 0`. -/
def effYear (r : SiteRec) : Int :=
  jsNum r.releaseYear (jsNum r.dataReleaseYear 0)

/-- The sort relation of `(a, b) => yearB - yearA`: `a` may precede `b`
iff `effYear b ≤ effYear a` (descending). -/
def yearGE (a b : SiteRec) : Prop := effYear b ≤ effYear a

instance : DecidableRel yearGE := fun a b => Int.decLe (effYear b) (effYear a)

instance : IsTotal SiteRec yearGE :=
  ⟨fun a b => le_total (effYear b) (effYear a)⟩

instance : IsTrans SiteRec yearGE :=
  ⟨fun _ _ _ hab hbc => le_trans hbc hab⟩

/-- The `allMovies` collection: concatenate CMS movies then local movies
(`[...cmsMovies, ...localMovies]`) and sort by `releaseYear` descending.
`Array.prototype.sort` is a stable sort (ES2019); `List.insertionSort`
with `yearGE` is an executable stable sort realizing the same result. -/
def allMoviesCollection (cmsMovies localMovies : List SiteRec) : List SiteRec :=
  List.insertionSort yearGE (cmsMovies ++ localMovies)

/-!
## Remote source client and snapshot cache (`fetch-cms-data.js`)
-/

/-- One asset from `data.includes.Asset`: `sys.id`, `fields.file?.url` and
`fields.file?.file?.url`. -/
structure CfAsset where
  sysId : String
  fileUrl : Option String
  fileFileUrl : Option String
  deriving DecidableEq, Repr

/-- JS `a || b` on two possibly-absent strings (`""` is falsy). -/
def jsOrOpt (a b : Option String) : Option String :=
  match a with
  | some s => if s = "" then b else some s
  | none => b

/-- One entry of `data.items`: `sys` metadata plus the named `fields`.
The `poster` field is a list of referenced asset ids
(`fields.poster[i].sys.id`); `none` models a missing/non-array field. -/
structure CfItem where
  sysId : String
  title : Option String
  director : Option String
  releaseYear : Option Int
  genre : Option String
  rating : Option Int
  description : Option String
  poster : Option (List String)
  sysCreatedAt : Option String
  sysUpdatedAt : Option String
  deriving DecidableEq, Repr

/-- Parsed body of the Contentful response: `items[]` and `includes.Asset[]`. -/
structure CfData where
  includesAsset : Option (List CfAsset)
  items : List CfItem
  deriving DecidableEq, Repr

/-- A normalized movie record as written into the snapshot.  `poster = none`
models a JS `undefined` poster (dropped by `JSON.stringify`). -/
structure MovieRecord where
  id : String
  title : String
  director : String
  releaseYear : Int
  genre : String
  rating : Int
  description : String
  poster : Option String
  source : String
  createdAt : Option String
  updatedAt : Option String
  deriving DecidableEq, Repr

/-- The snapshot container `{ movies: [...] }` written to `cmsData.json`. -/
structure Snapshot where
  movies : List MovieRecord
  deriving DecidableEq, Repr

def placeholderPoster : String := "https://via.placeholder.com/300x450"

/-- The asset lookup table: for each asset with a truthy
`file?.url || file?.file?.url`, map `sys.id` to `"https:" + url`. -/
def buildAssets (d : CfData) : List (String × String) :=
  match d.includesAsset with
  | none => []
  | some as =>
      as.foldl (fun table asset =>
        match jsOrOpt asset.fileUrl asset.fileFileUrl with
        | some u => if u = "" then table else setKV table asset.sysId ("https:" ++ u)
        | none => table) []

/-- The `posterId` value: the first id of the poster reference list, when the list
is a non-empty array. -/
def firstPosterId (poster : Option (List String)) : Option String :=
  match poster with
  | some (h :: _) => some h
  | _ => none

/-- Evaluation of `posterId ? assets[posterId] : placeholder`: a truthy (non-empty) id is
looked up in the asset table (possibly yielding `undefined`); a falsy id
yields the fixed placeholder URL. -/
def resolvePoster (assets : List (String × String)) (pid : Option String) : Option String :=
  match pid with
  | some p => if p = "" then some placeholderPoster else lookupKV assets p
  | none => some placeholderPoster

/-- Mapping one Contentful item to a movie record, with the per-field
`||` defaults of `fetch-cms-data.js`. -/
def normalizeItem (assets : List (String × String)) (item : CfItem) : MovieRecord :=
  { id := item.sysId
    title := jsOrStr item.title "Untitled"
    director := jsOrStr item.director "Unknown"
    releaseYear := jsNum item.releaseYear 0
    genre := jsOrStr item.genre "Unknown"
    rating := jsNum item.rating 0
    description := jsOrStr item.description ""
    poster := resolvePoster assets (firstPosterId item.poster)
    source := "contentful"
    createdAt := item.sysCreatedAt
    updatedAt := item.sysUpdatedAt }

/-- A response whose only entry references a poster asset that does not
occur in the (empty) asset includes: the reference dangles. -/
def cfDangling : CfData :=
  { includesAsset := none,
    items := [
      { sysId := "m1", title := some "Movie One", director := none,
        releaseYear := some 1999, genre := none, rating := none, description := none,
        poster := some ["asset1"], sysCreatedAt := none, sysUpdatedAt := none }] }

/-- A response with one resolvable protocol-relative poster asset and an
entry with absent title and year, used to instantiate the snapshot theorems. -/
def cfSample : CfData :=
  { includesAsset := some [
      { sysId := "asset1",
        fileUrl := some "//images.ctfassets.net/poster.jpg", fileFileUrl := none }],
    items := [
      { sysId := "m1", title := none, director := none,
        releaseYear := none, genre := none, rating := none, description := none,
        poster := some ["asset1"], sysCreatedAt := some "2025-11-14T00:00:00Z",
        sysUpdatedAt := some "2025-11-14T00:00:00Z" }] }

/-- Environment configuration read by the snapshot step. -/
structure CmsEnv where
  spaceId : Option String
  accessToken : Option String

/-- Outcome of the (at most one) `fetch` against the Contentful API:
the call throws, or yields a response with a status and a JSON body that
parses or fails to parse. -/
inductive CfOutcome where
  | netErr (msg : String)
  | resp (status : Nat) (body : Except String CfData)

/-- The Fetch API's `Response.ok`: status in the 2xx range. -/
def respOk (status : Nat) : Bool := 200 ≤ status && status < 300

/-- Observable result of one run of the snapshot step: the snapshot written
to `cmsData.json`, how many times `fetch` was invoked, the message logged by
the `catch` handler (if any), and the exception propagated to the caller
(always `none`: the step is fully wrapped by the credential guard and the
`try`/`catch`). -/
structure RunResult where
  written : Snapshot
  fetchCount : Nat
  errLog : Option String
  uncaught : Option String
  deriving DecidableEq, Repr

/-- Function `fetchContentfulData` of `fetch-cms-data.js`, with the network call
represented by the `outcome` argument. -/
def fetchContentfulData (env : CmsEnv) (outcome : CfOutcome) : RunResult :=
  if jsFalsy env.spaceId || jsFalsy env.accessToken then
    { written := ⟨[]⟩, fetchCount := 0, errLog := none, uncaught := none }
  else
    match outcome with
    | .netErr m =>
        { written := ⟨[]⟩, fetchCount := 1, errLog := some m, uncaught := none }
    | .resp status body =>
        if !respOk status then
          { written := ⟨[]⟩, fetchCount := 1
            errLog := some ("Contentful API Error: " ++ toString status)
            uncaught := none }
        else
          match body with
          | .error e =>
              { written := ⟨[]⟩, fetchCount := 1, errLog := some e, uncaught := none }
          | .ok d =>
              { written := ⟨d.items.map (normalizeItem (buildAssets d))⟩
                fetchCount := 1, errLog := none, uncaught := none }

/-!
## Live enrichment proxy (`netlify/functions/movie.js`)
-/

/-- A JSON value appearing in a response body: a string or `null`.
Fields whose JS value is `undefined` are dropped by `JSON.stringify`, so
they simply do not appear in the body's field list. -/
inductive JVal where
  | s (v : String)
  | nullv
  deriving DecidableEq, Repr

/-- The `event.queryStringParameters` object (when present). -/
structure QSP where
  title : Option String

/-- Parsed body of the OMDB response: the `Response`/`Error` envelope plus
the named movie fields, each possibly absent. -/
structure OmdbData where
  Response : Option String
  Error : Option String
  Title : Option String
  imdbRating : Option String
  Runtime : Option String
  Genre : Option String
  Actors : Option String
  Plot : Option String
  Poster : Option String
  Year : Option String
  Director : Option String
  deriving DecidableEq, Repr

/-- Outcome of the (at most one) `fetch` against the OMDB API. -/
inductive OmdbOutcome where
  | netErr (msg : String)
  | resp (status : Nat) (body : Except String OmdbData)

/-- An HTTP response produced by the handler.  The body is the field list
produced by `JSON.stringify` (in insertion order, `undefined` dropped). -/
structure HttpRes where
  statusCode : Nat
  headers : List (String × String)
  body : List (String × JVal)
  deriving DecidableEq, Repr

def jsonHeaders : List (String × String) :=
  [("Content-Type", "application/json"), ("Access-Control-Allow-Origin", "*")]

def res400 : HttpRes :=
  { statusCode := 400
    headers := jsonHeaders
    body := [("error", .s "Missing required parameter: title"),
             ("message", .s "Please provide a movie title in the query string")] }

def res404 (data : OmdbData) : HttpRes :=
  { statusCode := 404
    headers := jsonHeaders
    body := [("error", .s "Movie not found"),
             ("message", .s (jsOrStr data.Error "No movie found with that title"))] }

/-- The reshaped success payload: `title` is copied verbatim (dropped when
absent), seven fields are defaulted with `|| 'N/A'`, and `poster` is the
upstream value unless it is exactly `'N/A'` (then `null`); an absent
upstream `Poster` makes `poster` `undefined`, hence dropped. -/
def successBody (data : OmdbData) : List (String × JVal) :=
  (match data.Title with
   | some t => [("title", JVal.s t)]
   | none => [])
  ++ [("imdbRating", .s (jsOrStr data.imdbRating "N/A")),
      ("runtime", .s (jsOrStr data.Runtime "N/A")),
      ("genre", .s (jsOrStr data.Genre "N/A")),
      ("actors", .s (jsOrStr data.Actors "N/A")),
      ("plot", .s (jsOrStr data.Plot "N/A"))]
  ++ (match data.Poster with
      | some p => if p = "N/A" then [("poster", JVal.nullv)] else [("poster", JVal.s p)]
      | none => [])
  ++ [("year", .s (jsOrStr data.Year "N/A")),
      ("director", .s (jsOrStr data.Director "N/A"))]

def res200 (data : OmdbData) : HttpRes :=
  { statusCode := 200
    headers := jsonHeaders ++ [("Cache-Control", "public, max-age=3600")]
    body := successBody data }

/-- The `catch` response: `details` carries the exception's message exactly
when `NODE_ENV === 'development'`, and is `undefined` (dropped) otherwise. -/
def res500 (nodeEnv : Option String) (errMsg : String) : HttpRes :=
  { statusCode := 500
    headers := jsonHeaders
    body := [("error", .s "Internal server error"),
             ("message", .s "Failed to fetch movie data. Please try again later.")]
            ++ (if nodeEnv = some "development" then [("details", JVal.s errMsg)] else []) }

/-- Function `exports.handler` of `movie.js`: returns the HTTP response together with
the number of upstream `fetch` invocations performed. -/
def movieHandler (qp : Option QSP) (nodeEnv : Option String)
    (upstream : OmdbOutcome) : HttpRes × Nat :=
  let title : Option String :=
    match qp with
    | some q => q.title
    | none => none
  match title with
  | none => (res400, 0)
  | some t =>
      if t = "" then (res400, 0)
      else
        match upstream with
        | .netErr m => (res500 nodeEnv m, 1)
        | .resp status body =>
            if !respOk status then
              (res500 nodeEnv ("OMDB API returned status " ++ toString status), 1)
            else
              match body with
              | .error e => (res500 nodeEnv e, 1)
              | .ok data =>
                  if data.Response = some "False" then (res404 data, 1)
                  else (res200 data, 1)

/-- A sample successful OMDB reply used to instantiate the proxy theorems:
found (`Response: "True"`), with some fields present, some absent, an empty
`Genre`, and the no-image `Poster` sentinel. -/
def omdbSampleTrue : OmdbData :=
  { Response := some "True", Error := none, Title := some "Inception",
    imdbRating := some "8.8", Runtime := none, Genre := some "",
    Actors := some "Leonardo DiCaprio", Plot := none, Poster := some "N/A",
    Year := some "2010", Director := some "Christopher Nolan" }

/-!
## Client cache and renderer (`js/live.js`)
-/

/-- Substring test on character lists (for JS `String.prototype.includes`). -/
def chPrefixB : List Char → List Char → Bool
  | [], _ => true
  | _ :: _, [] => false
  | a :: as, b :: bs => a = b && chPrefixB as bs

/-- Does `needle` occur inside the second list? -/
def chSubB (needle : List Char) : List Char → Bool
  | [] => chPrefixB needle []
  | b :: bs => chPrefixB needle (b :: bs) || chSubB needle bs

/-- JS `s.includes(sub)`. -/
def strHasSub (s sub : String) : Bool := chSubB sub.toList s.toList

/-- The fields of the proxy's payload consumed by the renderer
(`updateUI` reads `imdbRating`, `runtime`, `genre`, `actors`, `plot`). -/
structure LiveData where
  imdbRating : String
  runtime : String
  genre : String
  actors : String
  plot : String
  deriving DecidableEq, Repr

/-- One entry of `liveMovieState`: `{ data, timestamp, cached: true }`. -/
structure CacheEntry where
  data : LiveData
  timestamp : Nat
  cached : Bool
  deriving DecidableEq, Repr

/-- The `liveMovieState` object, keyed by the exact title string. -/
def Cache : Type := List (String × CacheEntry)

/-- Function `saveToState(title, data)` (with `Date.now()` passed in as `now`). -/
def saveToState (cache : Cache) (title : String) (d : LiveData) (now : Nat) : Cache :=
  setKV cache title ⟨d, now, true⟩

/-- Function `getFromState(title)`. -/
def getFromState (cache : Cache) (title : String) : Option LiveData :=
  (lookupKV cache title).map (fun e => e.data)

/-- The five live display regions.  `some t` is an element with
`textContent = t`; `none` models `getElementById` returning `null`
(every DOM write is guarded by `if (element)`). -/
structure Dom where
  rating : Option String
  runtime : Option String
  genre : Option String
  actors : Option String
  plot : Option String
  deriving DecidableEq, Repr

/-- Guarded write: set the text only when the element exists. -/
def setText (v : String) (e : Option String) : Option String :=
  e.map (fun _ => v)

/-- Function `updateUILoading()`. -/
def updateUILoading (d : Dom) : Dom :=
  { rating := setText "â³ Loading..." d.rating
    runtime := setText "â³ Loading..." d.runtime
    genre := setText "â³ Loading..." d.genre
    actors := setText "â³ Loading..." d.actors
    plot := setText "â³ Loading..." d.plot }

/-- Function `updateUI(data)`: the rating region gets a decorated string unless the
rating is the `'N/A'` sentinel. -/
def updateUI (data : LiveData) (d : Dom) : Dom :=
  { rating := setText (if data.imdbRating ≠ "N/A"
                       then "â­ " ++ data.imdbRating ++ "/10" else "N/A") d.rating
    runtime := setText data.runtime d.runtime
    genre := setText data.genre d.genre
    actors := setText data.actors d.actors
    plot := setText data.plot d.plot }

/-- The explanatory text chosen for the plot region from the error message. -/
def classifyError (msg : String) : String :=
  if strHasSub msg "not found" || strHasSub msg "404" then
    "This movie is not available in OMDB database (primarily Hollywood movies). Try viewing a Hollywood movie like \"Inception\" or \"The Matrix\" to see live data."
  else if strHasSub msg "not available" then
    "Live data available only on Netlify deployment. This movie may also not be in OMDB database."
  else
    "Unable to load live data: " ++ msg

/-- Function `updateUIWithError(errorMessage)`: all five regions are set to `'N/A'`,
then the plot region is overwritten with the explanatory text. -/
def updateUIWithError (msg : String) (d : Dom) : Dom :=
  let d1 : Dom :=
    { rating := setText "N/A" d.rating
      runtime := setText "N/A" d.runtime
      genre := setText "N/A" d.genre
      actors := setText "N/A" d.actors
      plot := setText "N/A" d.plot }
  { d1 with plot := setText (classifyError msg) d1.plot }

/-- Outcome of the (at most one) client `fetch` of the proxy endpoint.
`failure msg` abstracts the message of the exception thrown while fetching
or while handling a non-ok response (lines 237–255 of `live.js`). -/
inductive ClientFetchOutcome where
  | success (d : LiveData)
  | failure (msg : String)

/-- Observable result of one run of the client flow. -/
structure ClientResult where
  cache : Cache
  dom : Dom
  fetchCount : Nat

/-- A two-entry cache used to instantiate the client theorems. -/
def demoCache : Cache :=
  [("Inception", ⟨⟨"9", "r", "g", "a", "p"⟩, 5, true⟩),
   ("The Matrix", ⟨⟨"8.7", "r2", "g2", "a2", "p2"⟩, 7, true⟩)]

/-- Function `loadLiveMovieData()`: `pageAttr` is the value of the
`data-movie-title` attribute of the first matching element (`none` when no
such element exists; `some ""` when the attribute is present but empty). -/
def loadLiveMovieData (pageAttr : Option String) (cache : Cache) (d : Dom)
    (outcome : ClientFetchOutcome) (now : Nat) : ClientResult :=
  match pageAttr with
  | none => ⟨cache, d, 0⟩
  | some movieTitle =>
      if movieTitle = "" then
        ⟨cache, updateUIWithError "Movie title not specified" d, 0⟩
      else
        match getFromState cache movieTitle with
        | some cachedData => ⟨cache, updateUI cachedData d, 0⟩
        | none =>
            let d1 := updateUILoading d
            match outcome with
            | .success movieData =>
                ⟨saveToState cache movieTitle movieData now, updateUI movieData d1, 1⟩
            | .failure msg =>
                ⟨cache, updateUIWithError msg d1, 1⟩

/-- Function `window.refreshMovieData()`: delete the current page's cache entry
(when the page has a titled element), then re-run `loadLiveMovieData`. -/
def refreshMovieData (pageAttr : Option String) (cache : Cache) (d : Dom)
    (outcome : ClientFetchOutcome) (now : Nat) : ClientResult :=
  let cache1 :=
    match pageAttr with
    | some title => delKV cache title
    | none => cache
  loadLiveMovieData pageAttr cache1 d outcome now

/-!
## Theorems
-/

/-- Filtering on a fixed key commutes with `orderedInsert`: the inserted
element lands in front of the equal-keyed elements already present. -/
theorem filter_orderedInsert (k : Int) (x : SiteRec) (l : List SiteRec) :
    (List.orderedInsert yearGE x l).filter (fun r => effYear r == k) =
      if effYear x = k
      then x :: l.filter (fun r => effYear r == k)
      else l.filter (fun r => effYear r == k) := by
  induction l with
  | nil =>
      by_cases hx : effYear x = k <;>
        simp [List.orderedInsert, List.filter_cons, beq_iff_eq, hx]
  | cons y ys ih =>
      by_cases hr : yearGE x y
      · by_cases hx : effYear x = k <;>
          simp [List.orderedInsert, hr, List.filter_cons, beq_iff_eq, hx]
      · have hlt : effYear x < effYear y := by
          simpa [yearGE, not_le] using hr
        by_cases hx : effYear x = k
        · have hy : ¬ effYear y = k := by
            intro hy
            rw [hx] at hlt
            rw [hy] at hlt
            exact lt_irrefl k hlt
          simp [List.orderedInsert, hr, List.filter_cons, beq_iff_eq, hx, hy, ih]
        · by_cases hy : effYear y = k <;>
            simp [List.orderedInsert, hr, List.filter_cons, beq_iff_eq, hx, hy, ih]

/-- Filtering on a fixed key is invariant under the insertion sort:
this is the stability of the merger's sort. -/
theorem filter_insertionSort (k : Int) (l : List SiteRec) :
    (List.insertionSort yearGE l).filter (fun r => effYear r == k) =
      l.filter (fun r => effYear r == k) := by
  induction l with
  | nil => rfl
  | cons x xs ih =>
      by_cases hx : effYear x = k <;>
        simp [List.insertionSort, filter_orderedInsert, hx, ih, List.filter_cons, beq_iff_eq]

theorem lookupKV_setKV_self {α : Type} (m : List (String × α)) (k : String) (v : α) :
    lookupKV (setKV m k v) k = some v := by
  induction m with
  | nil => simp [setKV, lookupKV]
  | cons p rest ih =>
      by_cases h : p.1 = k
      · simp [setKV, h, lookupKV]
      · simp [setKV, h, lookupKV, ih]

theorem lookupKV_setKV_ne {α : Type} (m : List (String × α)) (k k' : String) (v : α)
    (h : k' ≠ k) : lookupKV (setKV m k v) k' = lookupKV m k' := by
  have hk : ¬ k = k' := Ne.symm h
  induction m with
  | nil => simp [setKV, lookupKV, hk]
  | cons p rest ih =>
      by_cases hp : p.1 = k
      · have hp' : ¬ p.1 = k' := by
          rw [hp]
          exact hk
        cases p with
        | mk k0 v0 =>
            simp_all [setKV, lookupKV]
      · by_cases hp' : p.1 = k' <;>
          cases p with
          | mk k0 v0 => simp_all [setKV, lookupKV]

theorem lookupKV_delKV_self {α : Type} (m : List (String × α)) (k : String) :
    lookupKV (delKV m k) k = none := by
  induction m with
  | nil => rfl
  | cons p rest ih =>
      cases p with
      | mk k0 v0 =>
          by_cases hp : k0 = k <;> simp [delKV, hp, lookupKV, ih]

theorem lookupKV_delKV_ne {α : Type} (m : List (String × α)) (k k' : String)
    (h : k' ≠ k) : lookupKV (delKV m k) k' = lookupKV m k' := by
  induction m with
  | nil => rfl
  | cons p rest ih =>
      cases p with
      | mk k0 v0 =>
          by_cases hp : k0 = k
          · have hp' : ¬ k0 = k' := by
              rw [hp]
              exact Ne.symm h
            simp [delKV, hp, lookupKV, hp', ih, Ne.symm h]
          · by_cases hp' : k0 = k' <;> simp [delKV, hp, lookupKV, hp', ih, h]

theorem jsOrStr_ne_empty (o : Option String) (d : String) (hd : d ≠ "") :
    jsOrStr o d ≠ "" := by
  match o with
  | none => simpa [jsOrStr] using hd
  | some s =>
      by_cases hs : s = "" <;> simp [jsOrStr, hs, hd]

theorem setText_setText (v w : String) (e : Option String) :
    setText v (setText w e) = setText v e := by
  cases e <;> rfl

theorem updateUI_updateUI (a : LiveData) (d : Dom) :
    updateUI a (updateUI a d) = updateUI a d := by
  simp [updateUI, setText_setText]

/-- C1: the `allMovies` collection is the concatenation of snapshot records
followed by local records, sorted descending on the effective release year
(missing year read as 0), with the stable tie-break of the concatenation
order — expressed as: the output is a permutation of the concatenation, is
pairwise descending on `effYear`, and preserves the concatenation's
subsequence of records at every fixed year; the concrete 2001/2020 snapshot
merged with a 2010 local record yields years [2020, 2010, 2001]. -/
theorem C1_merged_collection_sorted_stable :
    (∀ cms locs : List SiteRec,
        (allMoviesCollection cms locs).Perm (cms ++ locs)) ∧
    (∀ cms locs : List SiteRec,
        (allMoviesCollection cms locs).Pairwise (fun a b => effYear b ≤ effYear a)) ∧
    (∀ (cms locs : List SiteRec) (k : Int),
        (allMoviesCollection cms locs).filter (fun r => effYear r == k) =
          (cms ++ locs).filter (fun r => effYear r == k)) ∧
    ((allMoviesCollection
        [{ id := "snap2001", releaseYear := some 2001, dataReleaseYear := none },
         { id := "snap2020", releaseYear := some 2020, dataReleaseYear := none }]
        [{ id := "local2010", releaseYear := some 2010, dataReleaseYear := none }]).map
        effYear = [2020, 2010, 2001]) := by
  refine ⟨fun cms locs => List.perm_insertionSort yearGE _,
    fun cms locs => ?_,
    fun cms locs k => filter_insertionSort k _,
    by decide⟩
  exact List.Pairwise.imp (fun h => h) (List.sorted_insertionSort yearGE _)

/-- C2: whenever the space id or the access token is missing or empty, the
snapshot step writes exactly the empty snapshot and never invokes `fetch`,
for every possible network outcome. -/
theorem C2_missing_credentials_skip_fetch (env : CmsEnv) (outcome : CfOutcome)
    (h : (jsFalsy env.spaceId || jsFalsy env.accessToken) = true) :
    (fetchContentfulData env outcome).written = ⟨[]⟩ ∧
    (fetchContentfulData env outcome).fetchCount = 0 := by
  simp [fetchContentfulData, h]

theorem C2_missing_credentials_skip_fetch_witness :
    ((jsFalsy (none : Option String) || jsFalsy (some "token")) = true) ∧
    ((fetchContentfulData ⟨none, some "token"⟩ (.netErr "boom")).written = ⟨[]⟩ ∧
     (fetchContentfulData ⟨none, some "token"⟩ (.netErr "boom")).fetchCount = 0) :=
  ⟨by decide,
   C2_missing_credentials_skip_fetch ⟨none, some "token"⟩ (.netErr "boom") (by decide)⟩

/-- C3: with credentials present, every failing fetch (network error,
non-2xx status, malformed JSON) makes the step log the cause and write the
empty snapshot, propagating no exception; a successful fetch writes the
normalized records. -/
theorem C3_fetch_failure_degrades_to_empty_snapshot (env : CmsEnv) (outcome : CfOutcome)
    (hcreds : (jsFalsy env.spaceId || jsFalsy env.accessToken) = false) :
    (fetchContentfulData env outcome).uncaught = none ∧
    (∀ m, outcome = .netErr m →
        fetchContentfulData env outcome = ⟨⟨[]⟩, 1, some m, none⟩) ∧
    (∀ status body, outcome = .resp status body → respOk status = false →
        fetchContentfulData env outcome =
          ⟨⟨[]⟩, 1, some ("Contentful API Error: " ++ toString status), none⟩) ∧
    (∀ status e, outcome = .resp status (.error e) → respOk status = true →
        fetchContentfulData env outcome = ⟨⟨[]⟩, 1, some e, none⟩) ∧
    (∀ status d, outcome = .resp status (.ok d) → respOk status = true →
        fetchContentfulData env outcome =
          ⟨⟨d.items.map (normalizeItem (buildAssets d))⟩, 1, none, none⟩) := by
  refine ⟨?_, ?_, ?_, ?_, ?_⟩
  · cases outcome with
    | netErr m => simp [fetchContentfulData, hcreds]
    | resp status body =>
        cases body <;> by_cases hok : respOk status <;>
          simp [fetchContentfulData, hcreds, hok]
  · intro m hm
    subst hm
    simp [fetchContentfulData, hcreds]
  · intro status body hb hok
    subst hb
    cases body <;> simp [fetchContentfulData, hcreds, hok]
  · intro status e hb hok
    subst hb
    simp [fetchContentfulData, hcreds, hok]
  · intro status d hb hok
    subst hb
    simp [fetchContentfulData, hcreds, hok]

theorem C3_fetch_failure_degrades_to_empty_snapshot_witness :
    ((jsFalsy (some "spaceid") || jsFalsy (some "token")) = false) ∧
    ((fetchContentfulData ⟨some "spaceid", some "token"⟩ (.resp 500 (.error "bad json"))).uncaught
        = none ∧
     (∀ m, CfOutcome.resp 500 (.error "bad json") = .netErr m →
        fetchContentfulData ⟨some "spaceid", some "token"⟩ (.resp 500 (.error "bad json")) =
          ⟨⟨[]⟩, 1, some m, none⟩) ∧
     (∀ status body, CfOutcome.resp 500 (.error "bad json") = .resp status body →
        respOk status = false →
        fetchContentfulData ⟨some "spaceid", some "token"⟩ (.resp 500 (.error "bad json")) =
          ⟨⟨[]⟩, 1, some ("Contentful API Error: " ++ toString status), none⟩) ∧
     (∀ status e, CfOutcome.resp 500 (.error "bad json") = .resp status (.error e) →
        respOk status = true →
        fetchContentfulData ⟨some "spaceid", some "token"⟩ (.resp 500 (.error "bad json")) =
          ⟨⟨[]⟩, 1, some e, none⟩) ∧
     (∀ status d, CfOutcome.resp 500 (.error "bad json") = .resp status (.ok d) →
        respOk status = true →
        fetchContentfulData ⟨some "spaceid", some "token"⟩ (.resp 500 (.error "bad json")) =
          ⟨⟨d.items.map (normalizeItem (buildAssets d))⟩, 1, none, none⟩)) :=
  ⟨by decide,
   C3_fetch_failure_degrades_to_empty_snapshot ⟨some "spaceid", some "token"⟩
     (.resp 500 (.error "bad json")) (by decide)⟩

/-- C5: a request with no query-parameter object or no `title` gets a 400
with an `error` field and no upstream call; a non-empty title whose 2xx
upstream response carries `Response: "False"` gets a 404 with
`{error: "Movie not found", message}`. -/
theorem C5_proxy_400_missing_title_404_not_found :
    (∀ (nodeEnv : Option String) (upstream : OmdbOutcome),
        (movieHandler none nodeEnv upstream).1.statusCode = 400 ∧
        lookupKV (movieHandler none nodeEnv upstream).1.body "error" =
          some (.s "Missing required parameter: title") ∧
        (movieHandler none nodeEnv upstream).2 = 0) ∧
    (∀ (nodeEnv : Option String) (upstream : OmdbOutcome),
        (movieHandler (some ⟨none⟩) nodeEnv upstream).1.statusCode = 400 ∧
        lookupKV (movieHandler (some ⟨none⟩) nodeEnv upstream).1.body "error" =
          some (.s "Missing required parameter: title") ∧
        (movieHandler (some ⟨none⟩) nodeEnv upstream).2 = 0) ∧
    (∀ (nodeEnv : Option String) (t : String) (status : Nat) (data : OmdbData),
        t ≠ "" → respOk status = true → data.Response = some "False" →
        (movieHandler (some ⟨some t⟩) nodeEnv (.resp status (.ok data))).1.statusCode = 404 ∧
        lookupKV (movieHandler (some ⟨some t⟩) nodeEnv
            (.resp status (.ok data))).1.body "error" = some (.s "Movie not found") ∧
        lookupKV (movieHandler (some ⟨some t⟩) nodeEnv
            (.resp status (.ok data))).1.body "message" =
          some (.s (jsOrStr data.Error "No movie found with that title"))) := by
  refine ⟨?_, ?_, ?_⟩
  · intro nodeEnv upstream
    refine ⟨rfl, ?_, rfl⟩
    simp [movieHandler, res400, lookupKV]
  · intro nodeEnv upstream
    refine ⟨rfl, ?_, rfl⟩
    simp [movieHandler, res400, lookupKV]
  · intro nodeEnv t status data ht hok hresp
    simp [movieHandler, ht, hok, hresp, res404, lookupKV]

theorem C5_proxy_400_missing_title_404_not_found_witness :
    ("ThisMovieDoesNotExist12345" ≠ "") ∧ respOk 200 = true ∧
    ((movieHandler (some ⟨some "ThisMovieDoesNotExist12345"⟩) none
        (.resp 200 (.ok ⟨some "False", some "Movie not found!", none, none, none, none,
          none, none, none, none, none⟩))).1.statusCode = 404 ∧
     lookupKV (movieHandler (some ⟨some "ThisMovieDoesNotExist12345"⟩) none
        (.resp 200 (.ok ⟨some "False", some "Movie not found!", none, none, none, none,
          none, none, none, none, none⟩))).1.body "error" = some (.s "Movie not found") ∧
     lookupKV (movieHandler (some ⟨some "ThisMovieDoesNotExist12345"⟩) none
        (.resp 200 (.ok ⟨some "False", some "Movie not found!", none, none, none, none,
          none, none, none, none, none⟩))).1.body "message" =
       some (.s (jsOrStr (some "Movie not found!") "No movie found with that title"))) :=
  ⟨by decide, by decide,
   C5_proxy_400_missing_title_404_not_found.2.2 none "ThisMovieDoesNotExist12345" 200
     ⟨some "False", some "Movie not found!", none, none, none, none,
       none, none, none, none, none⟩ (by decide) (by decide) rfl⟩

/-- C4 counterexample: a 2xx upstream reply with `Response: "True"` and all
movie fields absent is reshaped to a 200 whose body has NO `title` field at
all (`title: data.Title` has no `|| 'N/A'` default, and `JSON.stringify`
drops the resulting `undefined`), and no `poster` field either (an absent
upstream `Poster` is `undefined`, not `null`).  This contradicts the claim
that every absent field is defaulted to the sentinel `"N/A"`. -/
theorem C4_counterexample_absent_title_not_defaulted :
    (movieHandler (some ⟨some "Inception"⟩) none
        (.resp 200 (.ok ⟨some "True", none, none, none, none, none,
          none, none, none, none, none⟩))).1.statusCode = 200 ∧
    lookupKV (movieHandler (some ⟨some "Inception"⟩) none
        (.resp 200 (.ok ⟨some "True", none, none, none, none, none,
          none, none, none, none, none⟩))).1.body "title" = none ∧
    lookupKV (movieHandler (some ⟨some "Inception"⟩) none
        (.resp 200 (.ok ⟨some "True", none, none, none, none, none,
          none, none, none, none, none⟩))).1.body "poster" = none := by
  decide

/-- C4 (amended): for every 2xx upstream reply with `Response ≠ "False"`,
the proxy answers 200; the seven fields `imdbRating`, `runtime`, `genre`,
`actors`, `plot`, `year`, `director` are present and defaulted to `"N/A"`
when absent or empty upstream; `title` is copied verbatim and omitted when
absent upstream; `poster` is `null` exactly when upstream `Poster` is
`"N/A"`, is the upstream URL when present otherwise, and is omitted when
upstream `Poster` is absent. -/
theorem C4_success_reshape
    (nodeEnv : Option String) (t : String) (status : Nat) (data : OmdbData)
    (ht : t ≠ "") (hok : respOk status = true) (hresp : data.Response ≠ some "False") :
    (movieHandler (some ⟨some t⟩) nodeEnv (.resp status (.ok data))).1.statusCode = 200 ∧
    (movieHandler (some ⟨some t⟩) nodeEnv (.resp status (.ok data))).2 = 1 ∧
    lookupKV (movieHandler (some ⟨some t⟩) nodeEnv
        (.resp status (.ok data))).1.body "title" = data.Title.map JVal.s ∧
    lookupKV (movieHandler (some ⟨some t⟩) nodeEnv
        (.resp status (.ok data))).1.body "imdbRating" =
      some (.s (jsOrStr data.imdbRating "N/A")) ∧
    lookupKV (movieHandler (some ⟨some t⟩) nodeEnv
        (.resp status (.ok data))).1.body "runtime" =
      some (.s (jsOrStr data.Runtime "N/A")) ∧
    lookupKV (movieHandler (some ⟨some t⟩) nodeEnv
        (.resp status (.ok data))).1.body "genre" =
      some (.s (jsOrStr data.Genre "N/A")) ∧
    lookupKV (movieHandler (some ⟨some t⟩) nodeEnv
        (.resp status (.ok data))).1.body "actors" =
      some (.s (jsOrStr data.Actors "N/A")) ∧
    lookupKV (movieHandler (some ⟨some t⟩) nodeEnv
        (.resp status (.ok data))).1.body "plot" =
      some (.s (jsOrStr data.Plot "N/A")) ∧
    lookupKV (movieHandler (some ⟨some t⟩) nodeEnv
        (.resp status (.ok data))).1.body "year" =
      some (.s (jsOrStr data.Year "N/A")) ∧
    lookupKV (movieHandler (some ⟨some t⟩) nodeEnv
        (.resp status (.ok data))).1.body "director" =
      some (.s (jsOrStr data.Director "N/A")) ∧
    (lookupKV (movieHandler (some ⟨some t⟩) nodeEnv
        (.resp status (.ok data))).1.body "poster" =
      match data.Poster with
      | some p => if p = "N/A" then some JVal.nullv else some (JVal.s p)
      | none => none) ∧
    (lookupKV (movieHandler (some ⟨some t⟩) nodeEnv
        (.resp status (.ok data))).1.body "poster" = some JVal.nullv ↔
      data.Poster = some "N/A") := by
  have hstep : movieHandler (some ⟨some t⟩) nodeEnv (.resp status (.ok data)) =
      (res200 data, 1) := by
    simp [movieHandler, ht, hok, hresp]
  rw [hstep]
  cases hT : data.Title <;> cases hP : data.Poster <;>
    simp [res200, successBody, lookupKV, hT, hP]
  case none.some p =>
    by_cases hp : p = "N/A" <;> simp [hp, lookupKV]
  case some.some tt p =>
    by_cases hp : p = "N/A" <;> simp [hp, lookupKV]

theorem C4_success_reshape_witness :
    ("Inception" ≠ "") ∧ respOk 200 = true ∧ omdbSampleTrue.Response ≠ some "False" ∧
    ((movieHandler (some ⟨some "Inception"⟩) none
        (.resp 200 (.ok omdbSampleTrue))).1.statusCode = 200 ∧
     (movieHandler (some ⟨some "Inception"⟩) none (.resp 200 (.ok omdbSampleTrue))).2 = 1 ∧
     lookupKV (movieHandler (some ⟨some "Inception"⟩) none
        (.resp 200 (.ok omdbSampleTrue))).1.body "title" = omdbSampleTrue.Title.map JVal.s ∧
     lookupKV (movieHandler (some ⟨some "Inception"⟩) none
        (.resp 200 (.ok omdbSampleTrue))).1.body "imdbRating" =
       some (.s (jsOrStr omdbSampleTrue.imdbRating "N/A")) ∧
     lookupKV (movieHandler (some ⟨some "Inception"⟩) none
        (.resp 200 (.ok omdbSampleTrue))).1.body "runtime" =
       some (.s (jsOrStr omdbSampleTrue.Runtime "N/A")) ∧
     lookupKV (movieHandler (some ⟨some "Inception"⟩) none
        (.resp 200 (.ok omdbSampleTrue))).1.body "genre" =
       some (.s (jsOrStr omdbSampleTrue.Genre "N/A")) ∧
     lookupKV (movieHandler (some ⟨some "Inception"⟩) none
        (.resp 200 (.ok omdbSampleTrue))).1.body "actors" =
       some (.s (jsOrStr omdbSampleTrue.Actors "N/A")) ∧
     lookupKV (movieHandler (some ⟨some "Inception"⟩) none
        (.resp 200 (.ok omdbSampleTrue))).1.body "plot" =
       some (.s (jsOrStr omdbSampleTrue.Plot "N/A")) ∧
     lookupKV (movieHandler (some ⟨some "Inception"⟩) none
        (.resp 200 (.ok omdbSampleTrue))).1.body "year" =
       some (.s (jsOrStr omdbSampleTrue.Year "N/A")) ∧
     lookupKV (movieHandler (some ⟨some "Inception"⟩) none
        (.resp 200 (.ok omdbSampleTrue))).1.body "director" =
       some (.s (jsOrStr omdbSampleTrue.Director "N/A")) ∧
     (lookupKV (movieHandler (some ⟨some "Inception"⟩) none
        (.resp 200 (.ok omdbSampleTrue))).1.body "poster" =
       match omdbSampleTrue.Poster with
       | some p => if p = "N/A" then some JVal.nullv else some (JVal.s p)
       | none => none) ∧
     (lookupKV (movieHandler (some ⟨some "Inception"⟩) none
        (.resp 200 (.ok omdbSampleTrue))).1.body "poster" = some JVal.nullv ↔
       omdbSampleTrue.Poster = some "N/A")) :=
  ⟨by decide, by decide, by decide,
   C4_success_reshape none "Inception" 200 omdbSampleTrue
     (by decide) (by decide) (by decide)⟩

theorem lookupKV_res500_error (env : Option String) (m : String) :
    lookupKV (res500 env m).body "error" = some (.s "Internal server error") := by
  simp [res500, lookupKV]

theorem lookupKV_res500_message (env : Option String) (m : String) :
    lookupKV (res500 env m).body "message" =
      some (.s "Failed to fetch movie data. Please try again later.") := by
  simp [res500, lookupKV]

theorem lookupKV_res500_details (env : Option String) (m : String) :
    lookupKV (res500 env m).body "details" =
      (if env = some "development" then some (.s m) else none) := by
  by_cases h : env = some "development" <;> simp [res500, lookupKV, h]

theorem res500_details_iff (env : Option String) (m : String) :
    ((lookupKV (res500 env m).body "details").isSome = true ↔ env = some "development") := by
  rw [lookupKV_res500_details]
  by_cases h : env = some "development" <;> simp [h]

/-- C8: every uncaught exception in the handler (network error, non-2xx
upstream status, malformed upstream JSON) yields a 500 with the generic
`error`/`message` pair, and the exception's message appears as `details`
if and only if `NODE_ENV === 'development'` — so by default no internal
detail reaches the client. -/
theorem C8_internal_errors_500_no_detail_leak
    (t : String) (nodeEnv : Option String) (ht : t ≠ "") :
    (∀ m, (movieHandler (some ⟨some t⟩) nodeEnv (.netErr m)).1.statusCode = 500 ∧
       lookupKV (movieHandler (some ⟨some t⟩) nodeEnv (.netErr m)).1.body "error" =
         some (.s "Internal server error") ∧
       lookupKV (movieHandler (some ⟨some t⟩) nodeEnv (.netErr m)).1.body "message" =
         some (.s "Failed to fetch movie data. Please try again later.") ∧
       lookupKV (movieHandler (some ⟨some t⟩) nodeEnv (.netErr m)).1.body "details" =
         (if nodeEnv = some "development" then some (.s m) else none) ∧
       ((lookupKV (movieHandler (some ⟨some t⟩) nodeEnv
           (.netErr m)).1.body "details").isSome = true ↔
         nodeEnv = some "development")) ∧
    (∀ (status : Nat) (body : Except String OmdbData), respOk status = false →
       (movieHandler (some ⟨some t⟩) nodeEnv (.resp status body)).1.statusCode = 500 ∧
       lookupKV (movieHandler (some ⟨some t⟩) nodeEnv (.resp status body)).1.body "error" =
         some (.s "Internal server error") ∧
       lookupKV (movieHandler (some ⟨some t⟩) nodeEnv (.resp status body)).1.body "details" =
         (if nodeEnv = some "development"
          then some (.s ("OMDB API returned status " ++ toString status)) else none) ∧
       ((lookupKV (movieHandler (some ⟨some t⟩) nodeEnv
           (.resp status body)).1.body "details").isSome = true ↔
         nodeEnv = some "development")) ∧
    (∀ (status : Nat) (e : String), respOk status = true →
       (movieHandler (some ⟨some t⟩) nodeEnv (.resp status (.error e))).1.statusCode = 500 ∧
       lookupKV (movieHandler (some ⟨some t⟩) nodeEnv
           (.resp status (.error e))).1.body "error" = some (.s "Internal server error") ∧
       lookupKV (movieHandler (some ⟨some t⟩) nodeEnv
           (.resp status (.error e))).1.body "details" =
         (if nodeEnv = some "development" then some (.s e) else none) ∧
       ((lookupKV (movieHandler (some ⟨some t⟩) nodeEnv
           (.resp status (.error e))).1.body "details").isSome = true ↔
         nodeEnv = some "development")) := by
  refine ⟨?_, ?_, ?_⟩
  · intro m
    have hstep : movieHandler (some ⟨some t⟩) nodeEnv (.netErr m) = (res500 nodeEnv m, 1) := by
      simp [movieHandler, ht]
    rw [hstep]
    exact ⟨rfl, lookupKV_res500_error _ _, lookupKV_res500_message _ _,
      lookupKV_res500_details _ _, res500_details_iff _ _⟩
  · intro status body hbad
    have hstep : movieHandler (some ⟨some t⟩) nodeEnv (.resp status body) =
        (res500 nodeEnv ("OMDB API returned status " ++ toString status), 1) := by
      cases body <;> simp [movieHandler, ht, hbad]
    rw [hstep]
    exact ⟨rfl, lookupKV_res500_error _ _,
      lookupKV_res500_details _ _, res500_details_iff _ _⟩
  · intro status e hok
    have hstep : movieHandler (some ⟨some t⟩) nodeEnv (.resp status (.error e)) =
        (res500 nodeEnv e, 1) := by
      simp [movieHandler, ht, hok]
    rw [hstep]
    exact ⟨rfl, lookupKV_res500_error _ _,
      lookupKV_res500_details _ _, res500_details_iff _ _⟩

theorem C8_internal_errors_500_no_detail_leak_witness :
    ("Inception" ≠ "") ∧
    (movieHandler (some ⟨some "Inception"⟩) none (.netErr "ECONNREFUSED")).1.statusCode = 500 ∧
    lookupKV (movieHandler (some ⟨some "Inception"⟩) none
        (.netErr "ECONNREFUSED")).1.body "details" =
      (if (none : Option String) = some "development"
       then some (.s "ECONNREFUSED") else none) := by
  have h := C8_internal_errors_500_no_detail_leak "Inception" none (by decide)
  exact ⟨by decide, (h.1 "ECONNREFUSED").1, (h.1 "ECONNREFUSED").2.2.2.1⟩

/-- C6 counterexample: on a well-formed response whose single entry
references a poster asset absent from the asset table, the normalized
record's poster is `undefined` (dropped from the JSON) — neither a resolved
asset URL nor the fixed placeholder, contradicting the claim that every
record has a resolvable poster URL. -/
theorem C6_counterexample_dangling_poster_reference :
    ((fetchContentfulData ⟨some "spaceid", some "token"⟩
        (.resp 200 (.ok cfDangling))).written.movies.map MovieRecord.poster = [none]) ∧
    ((none : Option String) ≠ some placeholderPoster) := by
  decide

/-- C6 (amended): for every valid remote response, every normalized record
has a non-empty title (`"Untitled"` when absent), releaseYear defaulting to
0, the `source` tag, and a poster that is: the URL resolved from the first
poster-reference id when that id resolves in the asset table; the fixed
placeholder when the poster list is empty or absent (or its first id is the
empty string); and absent (`undefined`) when the first id is non-empty but
does not resolve. -/
theorem C6_normalized_records (env : CmsEnv) (status : Nat) (d : CfData)
    (hcreds : (jsFalsy env.spaceId || jsFalsy env.accessToken) = false)
    (hok : respOk status = true) :
    ((fetchContentfulData env (.resp status (.ok d))).written.movies =
      d.items.map (normalizeItem (buildAssets d))) ∧
    ∀ item ∈ d.items,
      (normalizeItem (buildAssets d) item).title ≠ "" ∧
      (item.title = none → (normalizeItem (buildAssets d) item).title = "Untitled") ∧
      (item.releaseYear = none → (normalizeItem (buildAssets d) item).releaseYear = 0) ∧
      (normalizeItem (buildAssets d) item).source = "contentful" ∧
      ((item.poster = none ∨ item.poster = some []) →
        (normalizeItem (buildAssets d) item).poster = some placeholderPoster) ∧
      (∀ pid rest url, item.poster = some (pid :: rest) → pid ≠ "" →
        lookupKV (buildAssets d) pid = some url →
        (normalizeItem (buildAssets d) item).poster = some url) ∧
      (∀ pid rest, item.poster = some (pid :: rest) → pid ≠ "" →
        lookupKV (buildAssets d) pid = none →
        (normalizeItem (buildAssets d) item).poster = none) := by
  refine ⟨by simp [fetchContentfulData, hcreds, hok], ?_⟩
  intro item hmem
  refine ⟨jsOrStr_ne_empty _ _ (by decide), ?_, ?_, rfl, ?_, ?_, ?_⟩
  · intro h
    simp [normalizeItem, jsOrStr, h]
  · intro h
    simp [normalizeItem, jsNum, h]
  · rintro (h | h) <;> simp [normalizeItem, resolvePoster, firstPosterId, h]
  · intro pid rest url hp hpid hres
    simp [normalizeItem, resolvePoster, firstPosterId, hp, hpid, hres]
  · intro pid rest hp hpid hres
    simp [normalizeItem, resolvePoster, firstPosterId, hp, hpid, hres]

theorem C6_normalized_records_witness :
    ((jsFalsy (some "spaceid") || jsFalsy (some "token")) = false) ∧ respOk 200 = true ∧
    (((fetchContentfulData ⟨some "spaceid", some "token"⟩
          (.resp 200 (.ok cfSample))).written.movies =
        cfSample.items.map (normalizeItem (buildAssets cfSample))) ∧
     ∀ item ∈ cfSample.items,
       (normalizeItem (buildAssets cfSample) item).title ≠ "" ∧
       (item.title = none → (normalizeItem (buildAssets cfSample) item).title = "Untitled") ∧
       (item.releaseYear = none →
         (normalizeItem (buildAssets cfSample) item).releaseYear = 0) ∧
       (normalizeItem (buildAssets cfSample) item).source = "contentful" ∧
       ((item.poster = none ∨ item.poster = some []) →
         (normalizeItem (buildAssets cfSample) item).poster = some placeholderPoster) ∧
       (∀ pid rest url, item.poster = some (pid :: rest) → pid ≠ "" →
         lookupKV (buildAssets cfSample) pid = some url →
         (normalizeItem (buildAssets cfSample) item).poster = some url) ∧
       (∀ pid rest, item.poster = some (pid :: rest) → pid ≠ "" →
         lookupKV (buildAssets cfSample) pid = none →
         (normalizeItem (buildAssets cfSample) item).poster = none)) :=
  ⟨by decide, by decide,
   C6_normalized_records ⟨some "spaceid", some "token"⟩ 200 cfSample (by decide) (by decide)⟩

/-- C7: when a first request for a title succeeds, a second request for the
same title is served from the in-memory state cache: no second fetch occurs
(count 0), the cache is unchanged, and the rendered DOM is identical to the
first request's render. -/
theorem C7_repeat_request_served_from_cache
    (cache0 : Cache) (d0 : Dom) (title : String) (data : LiveData)
    (out2 : ClientFetchOutcome) (now1 now2 : Nat)
    (ht : title ≠ "") (hmiss : lookupKV cache0 title = none) :
    (loadLiveMovieData (some title) cache0 d0 (.success data) now1).fetchCount = 1 ∧
    (loadLiveMovieData (some title)
        (loadLiveMovieData (some title) cache0 d0 (.success data) now1).cache
        (loadLiveMovieData (some title) cache0 d0 (.success data) now1).dom
        out2 now2).fetchCount = 0 ∧
    (loadLiveMovieData (some title)
        (loadLiveMovieData (some title) cache0 d0 (.success data) now1).cache
        (loadLiveMovieData (some title) cache0 d0 (.success data) now1).dom
        out2 now2).cache =
      (loadLiveMovieData (some title) cache0 d0 (.success data) now1).cache ∧
    (loadLiveMovieData (some title)
        (loadLiveMovieData (some title) cache0 d0 (.success data) now1).cache
        (loadLiveMovieData (some title) cache0 d0 (.success data) now1).dom
        out2 now2).dom =
      (loadLiveMovieData (some title) cache0 d0 (.success data) now1).dom := by
  have h1 : loadLiveMovieData (some title) cache0 d0 (.success data) now1 =
      ⟨saveToState cache0 title data now1, updateUI data (updateUILoading d0), 1⟩ := by
    simp [loadLiveMovieData, ht, getFromState, hmiss]
  have h2 : getFromState (saveToState cache0 title data now1) title = some data := by
    simp [getFromState, saveToState, lookupKV_setKV_self]
  rw [h1]
  have h3 : loadLiveMovieData (some title) (saveToState cache0 title data now1)
      (updateUI data (updateUILoading d0)) out2 now2 =
      ⟨saveToState cache0 title data now1,
       updateUI data (updateUI data (updateUILoading d0)), 0⟩ := by
    simp [loadLiveMovieData, ht, h2]
  rw [h3]
  exact ⟨rfl, rfl, rfl, updateUI_updateUI data (updateUILoading d0)⟩

theorem C7_repeat_request_served_from_cache_witness :
    ("Inception" ≠ "") ∧
    lookupKV ([] : Cache) "Inception" = none ∧
    ((loadLiveMovieData (some "Inception") [] ⟨some "", some "", some "", some "", some ""⟩
        (.success ⟨"8.8", "148 min", "Sci-Fi", "Leonardo DiCaprio", "A thief."⟩)
        0).fetchCount = 1 ∧
     (loadLiveMovieData (some "Inception")
        (loadLiveMovieData (some "Inception") [] ⟨some "", some "", some "", some "", some ""⟩
          (.success ⟨"8.8", "148 min", "Sci-Fi", "Leonardo DiCaprio", "A thief."⟩) 0).cache
        (loadLiveMovieData (some "Inception") [] ⟨some "", some "", some "", some "", some ""⟩
          (.success ⟨"8.8", "148 min", "Sci-Fi", "Leonardo DiCaprio", "A thief."⟩) 0).dom
        (.failure "network down") 1).fetchCount = 0 ∧
     (loadLiveMovieData (some "Inception")
        (loadLiveMovieData (some "Inception") [] ⟨some "", some "", some "", some "", some ""⟩
          (.success ⟨"8.8", "148 min", "Sci-Fi", "Leonardo DiCaprio", "A thief."⟩) 0).cache
        (loadLiveMovieData (some "Inception") [] ⟨some "", some "", some "", some "", some ""⟩
          (.success ⟨"8.8", "148 min", "Sci-Fi", "Leonardo DiCaprio", "A thief."⟩) 0).dom
        (.failure "network down") 1).cache =
       (loadLiveMovieData (some "Inception") [] ⟨some "", some "", some "", some "", some ""⟩
          (.success ⟨"8.8", "148 min", "Sci-Fi", "Leonardo DiCaprio", "A thief."⟩) 0).cache ∧
     (loadLiveMovieData (some "Inception")
        (loadLiveMovieData (some "Inception") [] ⟨some "", some "", some "", some "", some ""⟩
          (.success ⟨"8.8", "148 min", "Sci-Fi", "Leonardo DiCaprio", "A thief."⟩) 0).cache
        (loadLiveMovieData (some "Inception") [] ⟨some "", some "", some "", some "", some ""⟩
          (.success ⟨"8.8", "148 min", "Sci-Fi", "Leonardo DiCaprio", "A thief."⟩) 0).dom
        (.failure "network down") 1).dom =
       (loadLiveMovieData (some "Inception") [] ⟨some "", some "", some "", some "", some ""⟩
          (.success ⟨"8.8", "148 min", "Sci-Fi", "Leonardo DiCaprio", "A thief."⟩) 0).dom) :=
  ⟨by decide, rfl,
   C7_repeat_request_served_from_cache [] ⟨some "", some "", some "", some "", some ""⟩
     "Inception" ⟨"8.8", "148 min", "Sci-Fi", "Leonardo DiCaprio", "A thief."⟩
     (.failure "network down") 0 1 (by decide) rfl⟩

/-- C9: the manual refresh deletes exactly the current page's cache entry —
the entry for the page's title is gone, every entry for any other title is
untouched — and then re-runs the fetch path (a fetch is issued even though
the title may have been cached, and on success the new result replaces the
deleted entry while other entries still read as before). -/
theorem C9_refresh_clears_only_current_entry
    (cache : Cache) (d : Dom) (title other : String) (data : LiveData) (now : Nat)
    (ht : title ≠ "") (hother : other ≠ title) :
    lookupKV (delKV cache title) title = none ∧
    lookupKV (delKV cache title) other = lookupKV cache other ∧
    (refreshMovieData (some title) cache d (.success data) now).fetchCount = 1 ∧
    lookupKV (refreshMovieData (some title) cache d (.success data) now).cache other =
      lookupKV cache other ∧
    lookupKV (refreshMovieData (some title) cache d (.success data) now).cache title =
      some ⟨data, now, true⟩ := by
  have hdel : lookupKV (delKV cache title) title = none := lookupKV_delKV_self _ _
  have hmiss : getFromState (delKV cache title) title = none := by
    simp [getFromState, hdel]
  have hrun : refreshMovieData (some title) cache d (.success data) now =
      ⟨saveToState (delKV cache title) title data now,
       updateUI data (updateUILoading d), 1⟩ := by
    simp [refreshMovieData, loadLiveMovieData, ht, hmiss]
  refine ⟨hdel, lookupKV_delKV_ne _ _ _ hother, ?_, ?_, ?_⟩
  · rw [hrun]
  · rw [hrun]
    show lookupKV (saveToState (delKV cache title) title data now) other = lookupKV cache other
    rw [saveToState, lookupKV_setKV_ne _ _ _ _ hother, lookupKV_delKV_ne _ _ _ hother]
  · rw [hrun]
    show lookupKV (saveToState (delKV cache title) title data now) title =
      some ⟨data, now, true⟩
    rw [saveToState, lookupKV_setKV_self]

theorem C9_refresh_clears_only_current_entry_witness :
    ("Inception" ≠ "") ∧ ("The Matrix" ≠ "Inception") ∧
    (lookupKV (delKV demoCache "Inception")
        "Inception" = none ∧
     lookupKV (delKV demoCache "Inception")
        "The Matrix" =
       lookupKV demoCache "The Matrix" ∧
     (refreshMovieData (some "Inception")
        demoCache
        ⟨some "", some "", some "", some "", some ""⟩
        (.success ⟨"8.8", "148 min", "Sci-Fi", "Leo", "A thief."⟩) 9).fetchCount = 1 ∧
     lookupKV (refreshMovieData (some "Inception")
        demoCache
        ⟨some "", some "", some "", some "", some ""⟩
        (.success ⟨"8.8", "148 min", "Sci-Fi", "Leo", "A thief."⟩) 9).cache "The Matrix" =
       lookupKV demoCache "The Matrix" ∧
     lookupKV (refreshMovieData (some "Inception")
        demoCache
        ⟨some "", some "", some "", some "", some ""⟩
        (.success ⟨"8.8", "148 min", "Sci-Fi", "Leo", "A thief."⟩) 9).cache "Inception" =
       some ⟨⟨"8.8", "148 min", "Sci-Fi", "Leo", "A thief."⟩, 9, true⟩) :=
  ⟨by decide, by decide,
   C9_refresh_clears_only_current_entry
     demoCache
     ⟨some "", some "", some "", some "", some ""⟩ "Inception" "The Matrix"
     ⟨"8.8", "148 min", "Sci-Fi", "Leo", "A thief."⟩ 9 (by decide) (by decide)⟩

/-- C10: with a `data-movie-title` element whose attribute value is the
empty string, the client flow performs no fetch, leaves the cache alone,
sets the four non-plot regions to `"N/A"`, and sets the plot region to the
generic explanation `"Unable to load live data: Movie title not
specified"` (which contains `"Movie title not specified"`) — unlike the
missing-element path, which leaves the DOM entirely unchanged. -/
theorem C10_empty_title_renders_error_without_fetch
    (cache : Cache) (out : ClientFetchOutcome) (now : Nat) (r ru g a p : String) :
    (loadLiveMovieData (some "") cache
        ⟨some r, some ru, some g, some a, some p⟩ out now).fetchCount = 0 ∧
    (loadLiveMovieData (some "") cache
        ⟨some r, some ru, some g, some a, some p⟩ out now).cache = cache ∧
    (loadLiveMovieData (some "") cache
        ⟨some r, some ru, some g, some a, some p⟩ out now).dom =
      ⟨some "N/A", some "N/A", some "N/A", some "N/A",
       some "Unable to load live data: Movie title not specified"⟩ ∧
    strHasSub "Unable to load live data: Movie title not specified"
      "Movie title not specified" = true ∧
    (loadLiveMovieData none cache
        ⟨some r, some ru, some g, some a, some p⟩ out now).dom =
      ⟨some r, some ru, some g, some a, some p⟩ := by
  have hmsg : classifyError "Movie title not specified" =
      "Unable to load live data: Movie title not specified" := by decide
  refine ⟨rfl, rfl, ?_, by decide, rfl⟩
  show updateUIWithError "Movie title not specified"
      ⟨some r, some ru, some g, some a, some p⟩ =
    ⟨some "N/A", some "N/A", some "N/A", some "N/A",
     some "Unable to load live data: Movie title not specified"⟩
  simp [updateUIWithError, setText, hmsg]

end MovieLog
